import Mathlib

/-!
Verification of the Stress Signal Processing & Adaptive Break Orchestration
core of breathe-pulse, shallowly embedded from
`frontend/src/utils/useAppStore.ts` and `frontend/src/utils/breakTypes.ts`.

Numbers: JavaScript floats are modelled as exact rationals (ℚ); timestamps
(`Date.now()` milliseconds) as integers (ℤ).  The async
`showBreakSuggestion` action is modelled in two phases — the synchronous
prefix up to the awaited coaching call (`showBreakSuggestionStart`) and the
continuation after the call resolves (`showBreakSuggestionFinish`) — plus
the run-to-completion composition `showBreakSuggestion`, which takes the
random draw and the fetch outcome as explicit parameters.
-/

set_option maxRecDepth 4000

namespace BreathePulse

/-- `BreakType` from `breakTypes.ts`. -/
structure BreakType where
  id : String
  title : String
  description : String
deriving DecidableEq, Repr

/-- The immutable break catalog `breakTypes` from `breakTypes.ts`. -/
def breakTypes : List BreakType :=
  [ { id := "breathing", title := "Box Breathing",
      description := "Slowly inhale for 4 seconds, hold your breath for 4 seconds, slowly exhale for 4 seconds, and hold empty for 4 seconds. Repeat 3-5 times to calm your nervous system." },
    { id := "stretch", title := "Quick Stretch",
      description := "Gently roll your head clockwise, then counter-clockwise. Lift your shoulders up towards your ears, hold for a moment, then relax them down. Reach your arms overhead." },
    { id := "eye_rest", title := "Eye Rest (20-20-20)",
      description := "Look away from your screen at an object at least 20 feet (6 meters) away for 20 seconds. This helps reduce digital eye strain." },
    { id := "mindful_moment", title := "Mindful Moment",
      description := "Close your eyes or soften your gaze. Bring your attention to your senses for 60 seconds. What sounds do you hear? How does your body feel? Just observe without judgment." },
    { id := "puzzle", title := "Quick Brain Teaser",
      description := "Solve this quick math problem to reset your focus." } ]

/-- `ChatMessage` as declared locally in `useAppStore.ts` (role is the
string union "user" | "assistant"). -/
structure ChatMessage where
  role : String
  content : String
deriving DecidableEq, Repr

/-- The fields of the zustand store state in `useAppStore.ts` (the
`actions` record holds the functions, embedded below as top-level
definitions over this state). -/
structure AppState where
  currentStressLevel : ℚ
  isUserActive : Bool
  lastBreakTimestamp : Option ℤ
  breakSuggestionActive : Bool
  currentBreakSuggestion : Option BreakType
  dynamicCoachingMessage : Option String
  isFetchingCoachingMessage : Bool
  isChatOpen : Bool
  isCompanionChatOpen : Bool
  isFeedbackChatOpen : Bool
  feedbackChatHistory : List ChatMessage
  isFeedbackLoading : Bool
deriving DecidableEq, Repr

/-- `SMOOTHING_FACTOR = 0.1` from `useAppStore.ts`. -/
def SMOOTHING_FACTOR : ℚ := 0.1

/-- The initial store state from `create<AppState>(...)`. -/
def initialState : AppState :=
  { currentStressLevel := 0
    isUserActive := false
    lastBreakTimestamp := none
    breakSuggestionActive := false
    currentBreakSuggestion := none
    dynamicCoachingMessage := none
    isFetchingCoachingMessage := false
    isChatOpen := false
    isCompanionChatOpen := false
    isFeedbackChatOpen := false
    feedbackChatHistory := []
    isFeedbackLoading := false }

/-- `actions.updateMetricsFromCV`: exponential smoothing of the stress
level and direct update of the activity flag. -/
def updateMetricsFromCV (s : AppState) (rawStressLevel : ℚ) (isUserActive : Bool) : AppState :=
  { s with
    currentStressLevel :=
      SMOOTHING_FACTOR * rawStressLevel + (1 - SMOOTHING_FACTOR) * s.currentStressLevel
    isUserActive := isUserActive }

/-- Feeding a whole sequence of (raw, active) samples through
`updateMetricsFromCV`, in arrival order. -/
def runUpdates (s : AppState) (samples : List (ℚ × Bool)) : AppState :=
  samples.foldl (fun st p => updateMetricsFromCV st p.1 p.2) s

/-- `MIN_BREAK_INTERVAL_MS = 15 * 60 * 1000` from `showBreakSuggestion`. -/
def MIN_BREAK_INTERVAL_MS : ℤ := 15 * 60 * 1000

/-- `STRESS_THRESHOLD = 21` from `showBreakSuggestion`. -/
def STRESS_THRESHOLD : ℚ := 21

/-- `const timeSinceLastBreak = lastBreakTimestamp ? now - lastBreakTimestamp
: Infinity` from `showBreakSuggestion`.  JavaScript truthiness: both `null`
and the number `0` are falsy, so a stored timestamp of exactly 0 also takes
the `Infinity` branch; `none` here stands for the `Infinity` result. -/
def timeSinceLastBreak (lastBreakTimestamp : Option ℤ) (now : ℤ) : Option ℤ :=
  match lastBreakTimestamp with
  | none => none
  | some t => if t = 0 then none else some (now - t)

/-- The `shouldShowNormally` guard of `showBreakSuggestion`:
`!breakSuggestionActive && isUserActive && currentStressLevel >
STRESS_THRESHOLD && timeSinceLastBreak > MIN_BREAK_INTERVAL_MS`, where
`Infinity > MIN_BREAK_INTERVAL_MS` (the `none` result) is true. -/
def shouldShowNormally (s : AppState) (now : ℤ) : Bool :=
  !s.breakSuggestionActive &&
  s.isUserActive &&
  decide (STRESS_THRESHOLD < s.currentStressLevel) &&
  (match timeSinceLastBreak s.lastBreakTimestamp now with
   | none => true
   | some d => decide (MIN_BREAK_INTERVAL_MS < d))

/-- The synchronous prefix of the `if (force || shouldShowNormally)` branch
of `showBreakSuggestion`: `set({ isFetchingCoachingMessage: true,
dynamicCoachingMessage: null })`, executed before the awaited coaching
call. -/
def showBreakSuggestionStart (s : AppState) : AppState :=
  { s with isFetchingCoachingMessage := true, dynamicCoachingMessage := none }

/-- `breakTypes[Math.floor(Math.random() * breakTypes.length)]`, with the
uniform draw `r ∈ [0,1)` an explicit parameter.  (For `r` in range the
index is `< breakTypes.length`, so the `getD` default is never used.) -/
def selectBreak (r : ℚ) : BreakType :=
  breakTypes.getD (Int.toNat ⌊r * (breakTypes.length : ℚ)⌋)
    { id := "", title := "", description := "" }

/-- The continuation of `showBreakSuggestion` after the coaching call
resolves.  `fetchResult` is `some m` when `generate_coaching_message`
succeeded with message `m`, and `none` when the call threw or no auth
token was available; in the latter case the `catch` block keeps
`coachingMessage = selectedBreak.description`.  Either way the final
`set` activates the suggestion and clears the loading flag. -/
def showBreakSuggestionFinish (s : AppState) (selectedBreak : BreakType)
    (fetchResult : Option String) : AppState :=
  { s with
    breakSuggestionActive := true
    currentBreakSuggestion := some selectedBreak
    dynamicCoachingMessage := some (fetchResult.getD selectedBreak.description)
    isFetchingCoachingMessage := false }

/-- `actions.showBreakSuggestion(force = false)`, run to completion with no
interleaved store mutation: if `force || shouldShowNormally` the two phases
run back to back, otherwise nothing happens. -/
def showBreakSuggestion (s : AppState) (force : Bool) (now : ℤ) (r : ℚ)
    (fetchResult : Option String) : AppState :=
  if force || shouldShowNormally s now then
    showBreakSuggestionFinish (showBreakSuggestionStart s) (selectBreak r) fetchResult
  else
    s

/-- `actions.dismissBreakSuggestion(cooldownMinutes = 5)`: clears the
suggestion fields and sets `lastBreakTimestamp: Date.now()`; the
`cooldownMinutes` argument is only logged, never used. -/
def dismissBreakSuggestion (s : AppState) (cooldownMinutes : ℚ) (now : ℤ) : AppState :=
  { s with
    breakSuggestionActive := false
    currentBreakSuggestion := none
    dynamicCoachingMessage := none
    isFetchingCoachingMessage := false
    lastBreakTimestamp := some now }

/-- `actions.recordBreakTaken()`: clears the suggestion fields and sets
`lastBreakTimestamp: Date.now()`, unconditionally. -/
def recordBreakTaken (s : AppState) (now : ℤ) : AppState :=
  { s with
    breakSuggestionActive := false
    currentBreakSuggestion := none
    dynamicCoachingMessage := none
    isFetchingCoachingMessage := false
    lastBreakTimestamp := some now }

/-- Spec-side closed form of the exponential moving average: after feeding
`xs` starting from value `x0`,
`(1-a)^n * x0 + a * Σ_{i<n} (1-a)^(n-1-i) * xs[i]`. -/
def emaClosed (a x0 : ℚ) (xs : List ℚ) : ℚ :=
  (1 - a) ^ xs.length * x0 +
    a * (Finset.range xs.length).sum (fun i => (1 - a) ^ (xs.length - 1 - i) * xs.getD i 0)

/-! ### Helper lemmas -/

/-- The `shouldShowNormally` guard holds exactly when: no suggestion is
active, the user is active, the smoothed stress level strictly exceeds the
threshold, and strictly more than the minimum interval has elapsed since
`lastBreakTimestamp` — vacuously when it is null, and also vacuously when
the stored timestamp is exactly 0, which is falsy in JavaScript and takes
the `Infinity` branch. -/
theorem shouldShowNormally_eq_true_iff (s : AppState) (now : ℤ) :
    shouldShowNormally s now = true ↔
      (s.breakSuggestionActive = false ∧ s.isUserActive = true ∧
       STRESS_THRESHOLD < s.currentStressLevel ∧
       ∀ t, s.lastBreakTimestamp = some t → t ≠ 0 → MIN_BREAK_INTERVAL_MS < now - t) := by
  unfold shouldShowNormally timeSinceLastBreak
  cases hl : s.lastBreakTimestamp with
  | none => simp [hl, and_assoc]
  | some t =>
    by_cases ht : t = 0
    · subst ht
      simp [hl, and_assoc]
    · simp [hl, ht, and_assoc]

/-- A state with the guard false is left unchanged by a non-forced call. -/
theorem showBreakSuggestion_noop_of_guard_false (s : AppState) (now : ℤ) (r : ℚ)
    (fetch : Option String) (h : shouldShowNormally s now = false) :
    showBreakSuggestion s false now r fetch = s := by
  simp [showBreakSuggestion, h]

/-- Every valid index into the concrete catalog yields a catalog member. -/
theorem breakTypes_getD_mem (n : ℕ) (hn : n < breakTypes.length) :
    breakTypes.getD n { id := "", title := "", description := "" } ∈ breakTypes := by
  have h5 : breakTypes.length = 5 := rfl
  rw [h5] at hn
  have : n = 0 ∨ n = 1 ∨ n = 2 ∨ n = 3 ∨ n = 4 := by omega
  rcases this with h | h | h | h | h <;> subst h <;> decide

/-- For a draw `r ∈ [0,1)` the selected break is a catalog member. -/
theorem selectBreak_mem (r : ℚ) (h0 : 0 ≤ r) (h1 : r < 1) : selectBreak r ∈ breakTypes := by
  unfold selectBreak
  apply breakTypes_getD_mem
  have hlen : (breakTypes.length : ℚ) = 5 := rfl
  have hnn : (0 : ℚ) ≤ r * 5 := by linarith
  have hlt : r * 5 < 5 := by linarith
  have hf0 : 0 ≤ ⌊r * (breakTypes.length : ℚ)⌋ := Int.floor_nonneg.mpr (by rw [hlen]; exact hnn)
  have hf5 : ⌊r * (breakTypes.length : ℚ)⌋ < 5 := by
    rw [hlen]
    exact Int.floor_lt.mpr (by exact_mod_cast hlt)
  show Int.toNat ⌊r * (breakTypes.length : ℚ)⌋ < breakTypes.length
  have : breakTypes.length = 5 := rfl
  omega

/-! ### Claim theorems -/

/-- C10: the state produced by `dismissBreakSuggestion` is independent of
its `cooldownMinutes` argument — for any two argument values the resulting
store state is identical: the suggestion fields are cleared and
`lastBreakTimestamp` is set to the current time regardless of the
requested cooldown. -/
theorem claim10_dismiss_ignores_cooldown_argument (s : AppState) (now : ℤ) (c c' : ℚ) :
    dismissBreakSuggestion s c now = dismissBreakSuggestion s c' now ∧
    dismissBreakSuggestion s c now =
      { s with
        breakSuggestionActive := false
        currentBreakSuggestion := none
        dynamicCoachingMessage := none
        isFetchingCoachingMessage := false
        lastBreakTimestamp := some now } :=
  ⟨rfl, rfl⟩

/-- C4 counterexample: from the initial store state, the first raw sample
90 yields a smoothed value of 9 = 0.1·90, not 90 — the first sample is
blended against the initial value 0, not used to initialize the smoothed
value. -/
theorem claim4_counterexample_first_sample_blended :
    (updateMetricsFromCV initialState 90 true).currentStressLevel = 9 ∧ (9 : ℚ) ≠ 90 := by
  constructor
  · show SMOOTHING_FACTOR * 90 + (1 - SMOOTHING_FACTOR) * initialState.currentStressLevel = 9
    norm_num [SMOOTHING_FACTOR, initialState]
  · norm_num

/-- C4 amended: the first `updateMetricsFromCV` call blends the raw sample
against the store's initial smoothed value 0, so afterwards the smoothed
value is `SMOOTHING_FACTOR · raw` (0.1·raw), not `raw`. -/
theorem claim4_first_sample_scaled_by_alpha (raw : ℚ) (b : Bool) :
    (updateMetricsFromCV initialState raw b).currentStressLevel = SMOOTHING_FACTOR * raw := by
  show SMOOTHING_FACTOR * raw + (1 - SMOOTHING_FACTOR) * initialState.currentStressLevel =
    SMOOTHING_FACTOR * raw
  simp [initialState]

/-- C7 counterexample: calling `recordBreakTaken` while no suggestion is
active (the initial, Idle state) is not a no-op — it changes the state,
setting `lastBreakTimestamp` to the current time and thereby starting a
fresh cooldown. -/
theorem claim7_counterexample_record_while_idle_changes_state :
    initialState.breakSuggestionActive = false ∧
    (recordBreakTaken initialState 1000).lastBreakTimestamp = some 1000 ∧
    recordBreakTaken initialState 1000 ≠ initialState := by
  refine ⟨rfl, rfl, ?_⟩
  decide

/-- C7 amended: the lifecycle actions are unguarded: `recordBreakTaken`
and `dismissBreakSuggestion` invoked while no suggestion is active still
clear the suggestion fields and set `lastBreakTimestamp` to the current
time (restarting the cooldown); they raise no exception (they are total
functions), but they do change the state whenever `lastBreakTimestamp`
was not already the current time. -/
theorem claim7_lifecycle_actions_unguarded (s : AppState) (now : ℤ) (c : ℚ)
    (h : s.breakSuggestionActive = false) :
    recordBreakTaken s now =
      { s with
        breakSuggestionActive := false
        currentBreakSuggestion := none
        dynamicCoachingMessage := none
        isFetchingCoachingMessage := false
        lastBreakTimestamp := some now } ∧
    dismissBreakSuggestion s c now = recordBreakTaken s now ∧
    (s.lastBreakTimestamp ≠ some now → recordBreakTaken s now ≠ s) := by
  refine ⟨rfl, rfl, ?_⟩
  intro hne heq
  exact hne (by rw [← heq]; rfl)

/-- C7 amended, witness at a concrete state. -/
theorem claim7_lifecycle_actions_unguarded_witness :
    recordBreakTaken initialState 1000 ≠ initialState :=
  (claim7_lifecycle_actions_unguarded initialState 1000 5 rfl).2.2 (by decide)

/-- The pending-fetch state reached when a triggering call to
`showBreakSuggestion` has run its synchronous prefix (set the loading
flag) but its awaited coaching call has not yet resolved. -/
def pendingFetchState : AppState :=
  showBreakSuggestionStart
    { initialState with currentStressLevel := 30, isUserActive := true }

/-- C2 counterexample: while a coaching-message fetch is pending (loading
flag set, suggestion not yet active), a second non-forced call to
`showBreakSuggestion` is not a no-op: the guard only checks
`breakSuggestionActive`, which is still false, so the call proceeds and
activates a second suggestion session. -/
theorem claim2_counterexample_reentrant_call_during_pending_fetch :
    pendingFetchState.isFetchingCoachingMessage = true ∧
    pendingFetchState.breakSuggestionActive = false ∧
    (showBreakSuggestion pendingFetchState false 0 0 none).breakSuggestionActive = true ∧
    showBreakSuggestion pendingFetchState false 0 0 none ≠ pendingFetchState := by
  refine ⟨rfl, rfl, ?_, ?_⟩ <;> decide

/-- C2 amended: a non-forced call to `showBreakSuggestion` made while a
suggestion is already active (`breakSuggestionActive = true`) is a no-op
that changes no state; but no such guarantee holds during the pending
coaching fetch, when `breakSuggestionActive` is still false and the
loading flag is not consulted by the guard, so a second session can be
started in that window. -/
theorem claim2_show_noop_when_suggestion_active (s : AppState) (now : ℤ) (r : ℚ)
    (fetch : Option String) (h : s.breakSuggestionActive = true) :
    showBreakSuggestion s false now r fetch = s := by
  apply showBreakSuggestion_noop_of_guard_false
  simp [shouldShowNormally, h]

/-- C2 amended, witness at a concrete active state. -/
theorem claim2_show_noop_when_suggestion_active_witness :
    showBreakSuggestion { initialState with breakSuggestionActive := true } false 0 0 none =
      { initialState with breakSuggestionActive := true } :=
  claim2_show_noop_when_suggestion_active
    { initialState with breakSuggestionActive := true } 0 0 none rfl

/-- A store state dismissed at time 1000 ms (one second after epoch, a
truthy timestamp) with an explicit requested cooldown of 60 minutes,
while the user is active at stress level 30. -/
def dismissedState : AppState :=
  dismissBreakSuggestion
    { initialState with
      currentStressLevel := 30, isUserActive := true, breakSuggestionActive := true }
    60 1000

/-- C5 counterexample: after a dismissal at time t = 1000 requesting a
60-minute cooldown, a non-forced `showBreakSuggestion` 16 minutes later —
well before `t + max(60 min, 15 min)` — already raises a new suggestion,
because the requested cooldown is ignored and only the fixed 15-minute
minimum applies. -/
theorem claim5_counterexample_requested_cooldown_not_enforced :
    (961000 : ℤ) - 1000 < 60 * 60 * 1000 ∧
    (showBreakSuggestion dismissedState false 961000 0 none).breakSuggestionActive = true ∧
    showBreakSuggestion dismissedState false 961000 0 none ≠ dismissedState := by
  refine ⟨by decide, ?_, ?_⟩ <;> decide

/-- C5 amended: after `dismissBreakSuggestion` at a time `t ≠ 0`, no new
suggestion can be raised through the normal (non-forced) path at any time
`now` with `now - t ≤ 15 minutes`; the requested cooldown argument has no
effect, so the effective next-eligible time is `t + 15 minutes` (the
global minimum), not `t + max(c, 15 minutes)`.  (In the degenerate case
`t = 0` the stored timestamp is falsy in JavaScript and is treated as no
previous break, so nothing is blocked at all; `Date.now()` is never 0 in
practice.) -/
theorem claim5_dismissal_blocks_only_global_minimum (s : AppState) (c : ℚ) (t now : ℤ)
    (r : ℚ) (fetch : Option String) (ht : t ≠ 0) (h : now - t ≤ MIN_BREAK_INTERVAL_MS) :
    showBreakSuggestion (dismissBreakSuggestion s c t) false now r fetch =
      dismissBreakSuggestion s c t := by
  apply showBreakSuggestion_noop_of_guard_false
  have hnot : ¬ (MIN_BREAK_INTERVAL_MS < now - t) := by omega
  simp [shouldShowNormally, timeSinceLastBreak, dismissBreakSuggestion, ht, hnot]

/-- C5 amended, witness: a call exactly at the 15-minute mark after a
dismissal at time 1000 with requested cooldown 60 is a no-op. -/
theorem claim5_dismissal_blocks_only_global_minimum_witness :
    showBreakSuggestion (dismissBreakSuggestion initialState 60 1000) false 901000 0 none =
      dismissBreakSuggestion initialState 60 1000 :=
  claim5_dismissal_blocks_only_global_minimum initialState 60 1000 901000 0 none
    (by decide) (by decide)

/-- A state whose last session ended exactly at timestamp 0, with the
user active at stress 30 and no suggestion active. -/
def epochBreakState : AppState :=
  { initialState with
    currentStressLevel := 30, isUserActive := true, lastBreakTimestamp := some 0 }

/-- C1 counterexample: with `lastBreakTimestamp = some 0` a session has
ended and, at `now` = 500000 ms (about 8 minutes later), far less than the
15-minute minimum has elapsed — yet the non-forced call still raises a
suggestion, because the ternary `lastBreakTimestamp ? now -
lastBreakTimestamp : Infinity` treats the falsy timestamp 0 as no
previous break. -/
theorem claim1_counterexample_epoch_timestamp_bypasses_cooldown :
    epochBreakState.lastBreakTimestamp = some 0 ∧
    (500000 : ℤ) - 0 ≤ MIN_BREAK_INTERVAL_MS ∧
    (showBreakSuggestion epochBreakState false 500000 0 none).breakSuggestionActive = true ∧
    showBreakSuggestion epochBreakState false 500000 0 none ≠ epochBreakState := by
  refine ⟨rfl, by decide, ?_, ?_⟩ <;> decide

/-- C1 amended: a non-forced call to `showBreakSuggestion` changes the
state — i.e. raises a suggestion — exactly when no suggestion is active,
the user is present, the smoothed stress level strictly exceeds the
threshold 21, and strictly more than the 15-minute minimum interval has
elapsed since `lastBreakTimestamp` — vacuously when no session has ever
ended, and also vacuously when the recorded timestamp is exactly 0, which
is falsy in JavaScript and takes the no-previous-break branch; when the
guard fails the state is left unchanged, and when it holds the suggestion
becomes active. -/
theorem claim1_normal_path_trigger (s : AppState) (now : ℤ) (r : ℚ) (fetch : Option String) :
    (showBreakSuggestion s false now r fetch ≠ s ↔
      (s.breakSuggestionActive = false ∧ s.isUserActive = true ∧
       STRESS_THRESHOLD < s.currentStressLevel ∧
       ∀ t, s.lastBreakTimestamp = some t → t ≠ 0 → MIN_BREAK_INTERVAL_MS < now - t)) ∧
    (shouldShowNormally s now = false → showBreakSuggestion s false now r fetch = s) ∧
    (shouldShowNormally s now = true →
      (showBreakSuggestion s false now r fetch).breakSuggestionActive = true) := by
  have hact : shouldShowNormally s now = true →
      (showBreakSuggestion s false now r fetch).breakSuggestionActive = true := by
    intro hg
    simp [showBreakSuggestion, hg, showBreakSuggestionFinish]
  refine ⟨?_, showBreakSuggestion_noop_of_guard_false s now r fetch, hact⟩
  constructor
  · intro hne
    rcases Bool.eq_false_or_eq_true (shouldShowNormally s now) with hg | hg
    · exact (shouldShowNormally_eq_true_iff s now).mp hg
    · exact absurd (showBreakSuggestion_noop_of_guard_false s now r fetch hg) hne
  · intro hconds
    have hg : shouldShowNormally s now = true := (shouldShowNormally_eq_true_iff s now).mpr hconds
    intro heq
    have : (showBreakSuggestion s false now r fetch).breakSuggestionActive =
        s.breakSuggestionActive := by rw [heq]
    rw [hact hg, hconds.1] at this
    exact Bool.true_eq_false ▸ this

/-- C1, witness: from a concrete Idle state with stress 30, active user
and no previous session, a non-forced call does raise a suggestion. -/
theorem claim1_normal_path_trigger_witness :
    showBreakSuggestion { initialState with currentStressLevel := 30, isUserActive := true }
        false 0 0 none ≠
      { initialState with currentStressLevel := 30, isUserActive := true } :=
  (claim1_normal_path_trigger
      { initialState with currentStressLevel := 30, isUserActive := true } 0 0 none).1.mpr
    ⟨rfl, rfl, by norm_num [STRESS_THRESHOLD], fun t ht => Option.noConfusion ht⟩

/-- C6: whenever a call to `showBreakSuggestion` proceeds (forced, or the
normal guard holds) and the coaching-message call fails — it threw, or no
auth token was available, both modelled by `fetchResult = none` — the
suggestion is still shown: the flow ends with `breakSuggestionActive`
true, the selected variant stored, the message fallen back to that
variant's static `description`, and the loading flag cleared; no error is
surfaced (the embedded action is a total function into states). -/
theorem claim6_coaching_failure_falls_back (s : AppState) (now : ℤ) (r : ℚ) (force : Bool)
    (hgo : (force || shouldShowNormally s now) = true) (h0 : 0 ≤ r) (h1 : r < 1) :
    (showBreakSuggestion s force now r none).breakSuggestionActive = true ∧
    (showBreakSuggestion s force now r none).currentBreakSuggestion = some (selectBreak r) ∧
    (showBreakSuggestion s force now r none).dynamicCoachingMessage =
      some (selectBreak r).description ∧
    (showBreakSuggestion s force now r none).isFetchingCoachingMessage = false ∧
    selectBreak r ∈ breakTypes := by
  refine ⟨?_, ?_, ?_, ?_, selectBreak_mem r h0 h1⟩ <;>
    simp [showBreakSuggestion, hgo, showBreakSuggestionFinish, showBreakSuggestionStart,
      Option.getD]

/-- C6, witness: a forced call on the initial state with a failing
coaching fetch still activates the suggestion with the selected variant's
static description. -/
theorem claim6_coaching_failure_falls_back_witness :
    (showBreakSuggestion initialState true 0 (1/2) none).breakSuggestionActive = true ∧
    (showBreakSuggestion initialState true 0 (1/2) none).currentBreakSuggestion =
      some (selectBreak (1/2)) ∧
    (showBreakSuggestion initialState true 0 (1/2) none).dynamicCoachingMessage =
      some (selectBreak (1/2)).description ∧
    (showBreakSuggestion initialState true 0 (1/2) none).isFetchingCoachingMessage = false ∧
    selectBreak (1/2) ∈ breakTypes :=
  claim6_coaching_failure_falls_back initialState 0 (1/2) true rfl (by norm_num) (by norm_num)

/-- Unfolding one step of the closed-form EMA from the front: prepending a
sample is the same as advancing the start value by one update. -/
theorem emaClosed_cons (a x0 x : ℚ) (xs : List ℚ) :
    emaClosed a x0 (x :: xs) = emaClosed a (a * x + (1 - a) * x0) xs := by
  unfold emaClosed
  simp only [List.length_cons, Nat.add_sub_cancel]
  rw [Finset.sum_range_succ']
  simp only [List.getD_cons_succ, List.getD_cons_zero, Nat.sub_zero]
  have hs : (Finset.range xs.length).sum
      (fun i => (1 - a) ^ (xs.length - (i + 1)) * xs.getD i 0) =
      (Finset.range xs.length).sum
      (fun i => (1 - a) ^ (xs.length - 1 - i) * xs.getD i 0) := by
    apply Finset.sum_congr rfl
    intro i _
    congr 1
    congr 1
    omega
  rw [hs]
  ring

/-- Running any sample sequence through `updateMetricsFromCV` computes the
closed-form EMA of the raw values, started at the state's current smoothed
value. -/
theorem runUpdates_ema (s : AppState) (samples : List (ℚ × Bool)) :
    (runUpdates s samples).currentStressLevel =
      emaClosed SMOOTHING_FACTOR s.currentStressLevel (samples.map Prod.fst) := by
  induction samples generalizing s with
  | nil => simp [runUpdates, emaClosed]
  | cons p ps ih =>
    rw [List.map_cons, emaClosed_cons]
    have h := ih (updateMetricsFromCV s p.1 p.2)
    simpa [runUpdates, updateMetricsFromCV] using h

/-- C3: each `updateMetricsFromCV` step computes exactly
`α·raw + (1-α)·smoothed` with α = `SMOOTHING_FACTOR` = 0.1 (definitional
equality — there is no alternative formulation), and consequently, for
every finite sequence of raw samples fed from the initial state, the
smoothed stress level equals the closed-form exponential moving average of
the raw values with α = 0.1 (from the store's initial value 0).  Both
sides are pure functions of the input sequence, so two runs on the same
inputs yield identical values (JavaScript floats modelled as exact
rationals). -/
theorem claim3_smoother_matches_closed_form_ema (s : AppState) (raw : ℚ) (b : Bool)
    (samples : List (ℚ × Bool)) :
    (updateMetricsFromCV s raw b).currentStressLevel =
      SMOOTHING_FACTOR * raw + (1 - SMOOTHING_FACTOR) * s.currentStressLevel ∧
    SMOOTHING_FACTOR = 0.1 ∧
    (runUpdates initialState samples).currentStressLevel =
      emaClosed SMOOTHING_FACTOR 0 (samples.map Prod.fst) :=
  ⟨rfl, rfl, runUpdates_ema initialState samples⟩

/-- C8 counterexample: the break selection depends only on the random
draw — draws 0 and 1/2 yield different variants ("breathing" vs
"eye_rest").  An ε-greedy selector with ε = 0 over fixed preference scores
with a unique highest mean would return that same variant on every draw;
the code's selection varies with the draw alone and consults no
preference scores (no preference model exists in the store state at all),
so it does not implement the claimed ε = 0 exploitation behavior. -/
theorem claim8_counterexample_selector_varies_with_draw :
    (selectBreak 0).id = "breathing" ∧ (selectBreak (1/2)).id = "eye_rest" ∧
    selectBreak 0 ≠ selectBreak (1/2) := by
  have hlen : ((breakTypes.length : ℕ) : ℚ) = 5 := by
    norm_num [show breakTypes.length = 5 from rfl]
  have h0 : selectBreak 0 = breakTypes.getD 0 { id := "", title := "", description := "" } := by
    unfold selectBreak
    have hf : ⌊(0 : ℚ) * (breakTypes.length : ℚ)⌋ = 0 := by
      rw [hlen]
      norm_num
    rw [hf]
    rfl
  have h2 : selectBreak (1/2) =
      breakTypes.getD 2 { id := "", title := "", description := "" } := by
    unfold selectBreak
    have hf : ⌊(1/2 : ℚ) * (breakTypes.length : ℚ)⌋ = 2 := by
      rw [hlen]
      exact Int.floor_eq_iff.mpr ⟨by norm_num, by norm_num⟩
    rw [hf]
    rfl
  rw [h0, h2]
  refine ⟨rfl, rfl, ?_⟩
  decide

/-- C8 amended: the Break Selector picks uniformly at random among the
five catalog variants with no preference input: from the uniform draw
`r ∈ [0,1)` it returns the k-th catalog entry exactly on the interval
`[k/5, (k+1)/5)`, so all five variants are selected on draw intervals of
equal length 1/5 (the behavior of ε-greedy fixed at ε = 1); the selection
reads and mutates no preference model. -/
theorem claim8_selector_uniform_over_catalog (k : ℕ) (r : ℚ)
    (hk : k < breakTypes.length)
    (hlo : (k : ℚ) / breakTypes.length ≤ r) (hhi : r < ((k : ℚ) + 1) / breakTypes.length) :
    selectBreak r = breakTypes.getD k { id := "", title := "", description := "" } ∧
    breakTypes.getD k { id := "", title := "", description := "" } ∈ breakTypes := by
  refine ⟨?_, breakTypes_getD_mem k hk⟩
  have hlen : ((breakTypes.length : ℕ) : ℚ) = 5 := by
    norm_num [show breakTypes.length = 5 from rfl]
  rw [hlen] at hlo hhi
  have h5 : (0 : ℚ) < 5 := by norm_num
  have hA : (k : ℚ) ≤ r * 5 := by
    have h := (div_le_iff₀ h5).mp hlo
    linarith
  have hB : r * 5 < (k : ℚ) + 1 := (lt_div_iff₀ h5).mp hhi
  have hfloor : ⌊r * (breakTypes.length : ℚ)⌋ = (k : ℤ) := by
    rw [hlen]
    rw [Int.floor_eq_iff]
    exact ⟨by exact_mod_cast hA, by exact_mod_cast hB⟩
  unfold selectBreak
  rw [hfloor]
  simp

/-- C8 amended, witness: the draw 1/2 lies in [2/5, 3/5) and selects the
third catalog entry. -/
theorem claim8_selector_uniform_over_catalog_witness :
    selectBreak (1/2) = breakTypes.getD 2 { id := "", title := "", description := "" } ∧
    breakTypes.getD 2 { id := "", title := "", description := "" } ∈ breakTypes :=
  claim8_selector_uniform_over_catalog 2 (1/2) (by decide)
    (by norm_num [show breakTypes.length = 5 from rfl])
    (by norm_num [show breakTypes.length = 5 from rfl])

/-! ### Feedback Aggregator (spec-modelled)

Modelled from the spec: the repository source contains no Feedback
Aggregator, preference model or reward logic at all (the Design Notes of
the spec state the observed selection is uniform random and the bandit
learner is the intended design); the definitions below follow §4.5 of the
spec literally. -/

/-- Modelled from the spec: the outcome of a feedback event that applies
to a specific variant (per §4.5, a Dismissed outcome applies to no
variant, so it carries no variant-score update and is not included). -/
inductive Outcome where
  | Completed
  | Skipped
deriving DecidableEq, Repr

/-- Modelled from the spec: optional sentiment attached to an outcome. -/
inductive Sentiment where
  | Positive
  | Neutral
  | Negative
  | NoSentiment
deriving DecidableEq, Repr

/-- Modelled from the spec: sentiment reward multiplier — Positive ×1.5,
Negative ×0.5, Neutral ×1, and ×1 when no sentiment is present. -/
def sentimentMultiplier : Sentiment → ℚ
  | .Positive => 1.5
  | .Negative => 0.5
  | .Neutral => 1
  | .NoSentiment => 1

/-- Modelled from the spec: reward mapping — Completed → +1, Skipped →
−0.5, scaled by the sentiment multiplier. -/
def reward (o : Outcome) (sent : Sentiment) : ℚ :=
  (match o with
   | .Completed => 1
   | .Skipped => -0.5) * sentimentMultiplier sent

/-- Modelled from the spec: a variant's preference score, sufficient
statistics `{ mean, tries }`. -/
structure Score where
  mean : ℚ
  tries : ℕ
deriving DecidableEq, Repr

/-- Modelled from the spec: the Feedback Aggregator's incremental-mean
update, `mean' = mean + (reward − mean) / (tries + 1)`,
`tries' = tries + 1`. -/
def recordFeedback (sc : Score) (o : Outcome) (sent : Sentiment) : Score :=
  { mean := sc.mean + (reward o sent - sc.mean) / (sc.tries + 1)
    tries := sc.tries + 1 }

/-- Folding a whole event sequence through the Feedback Aggregator, in
occurrence order. -/
def recordAll (sc : Score) (events : List (Outcome × Sentiment)) : Score :=
  events.foldl (fun acc e => recordFeedback acc e.1 e.2) sc

/-- Invariant of the incremental-mean update: after any event sequence,
`tries` counts the events and `mean · tries` accumulates the rewards. -/
theorem recordAll_stats (events : List (Outcome × Sentiment)) (sc : Score) :
    (recordAll sc events).tries = sc.tries + events.length ∧
    (recordAll sc events).mean * ((sc.tries : ℚ) + events.length) =
      sc.mean * sc.tries + (events.map (fun e => reward e.1 e.2)).sum := by
  induction events generalizing sc with
  | nil => simp [recordAll]
  | cons e es ih =>
    have h := ih (recordFeedback sc e.1 e.2)
    have hstep : recordAll sc (e :: es) = recordAll (recordFeedback sc e.1 e.2) es := rfl
    have htries : (recordFeedback sc e.1 e.2).tries = sc.tries + 1 := rfl
    constructor
    · rw [hstep, h.1, htries, List.length_cons]
      omega
    · have hne : ((sc.tries : ℚ) + 1) ≠ 0 := by positivity
      have key : (recordFeedback sc e.1 e.2).mean * ((sc.tries : ℚ) + 1) =
          sc.mean * sc.tries + reward e.1 e.2 := by
        show (sc.mean + (reward e.1 e.2 - sc.mean) / ((sc.tries : ℚ) + 1)) *
          ((sc.tries : ℚ) + 1) = sc.mean * sc.tries + reward e.1 e.2
        field_simp
        ring
      have h2 := h.2
      rw [htries] at h2
      push_cast at h2
      rw [hstep]
      simp only [List.length_cons, List.map_cons, List.sum_cons]
      push_cast
      linear_combination h2 + key

/-- C9: the Feedback Aggregator (modelled from the spec, absent from the
source) updates a score by exactly `mean' = mean + (reward − mean) /
(tries + 1)`, `tries' = tries + 1`, with rewards Completed = +1 and
Skipped = −0.5 scaled by sentiment (Positive ×1.5, Negative ×0.5, Neutral
and no-sentiment ×1); a Completed with Positive sentiment moves a fresh
variant from (mean 0, 0 tries) to (mean 1.5, 1 try), a subsequent Skipped
with no sentiment moves it to mean 0.5, and for every event sequence the
resulting mean equals the batch average of the rewards. -/
theorem claim9_feedback_incremental_mean (sc : Score) (o : Outcome) (sent : Sentiment)
    (events : List (Outcome × Sentiment)) :
    recordFeedback sc o sent =
      { mean := sc.mean + (reward o sent - sc.mean) / ((sc.tries : ℚ) + 1)
        tries := sc.tries + 1 } ∧
    recordFeedback { mean := 0, tries := 0 } .Completed .Positive =
      { mean := 1.5, tries := 1 } ∧
    recordFeedback { mean := 1.5, tries := 1 } .Skipped .NoSentiment =
      { mean := 0.5, tries := 2 } ∧
    (recordAll { mean := 0, tries := 0 } events).tries = events.length ∧
    (recordAll { mean := 0, tries := 0 } events).mean * (events.length : ℚ) =
      (events.map (fun e => reward e.1 e.2)).sum ∧
    (events.length ≠ 0 →
      (recordAll { mean := 0, tries := 0 } events).mean =
        (events.map (fun e => reward e.1 e.2)).sum / (events.length : ℚ)) := by
  have hstats := recordAll_stats events { mean := 0, tries := 0 }
  have htries : (recordAll { mean := 0, tries := 0 } events).tries = events.length := by
    have := hstats.1
    simpa using this
  have hprod : (recordAll { mean := 0, tries := 0 } events).mean * (events.length : ℚ) =
      (events.map (fun e => reward e.1 e.2)).sum := by
    have := hstats.2
    simpa using this
  refine ⟨rfl, ?_, ?_, htries, hprod, ?_⟩
  · norm_num [recordFeedback, reward, sentimentMultiplier, Score.mk.injEq]
  · norm_num [recordFeedback, reward, sentimentMultiplier, Score.mk.injEq]
  intro hlen
  have hlenQ : (events.length : ℚ) ≠ 0 := by exact_mod_cast hlen
  field_simp
  linear_combination hprod

/-- C9, witness: the two-event scenario sequence — Completed with
Positive sentiment then Skipped with no sentiment — has batch average
(1.5 + (−0.5)) / 2 = 0.5, matching the aggregated mean. -/
theorem claim9_feedback_incremental_mean_witness :
    (recordAll { mean := 0, tries := 0 }
        [(Outcome.Completed, Sentiment.Positive),
         (Outcome.Skipped, Sentiment.NoSentiment)]).mean =
      (([(Outcome.Completed, Sentiment.Positive),
         (Outcome.Skipped, Sentiment.NoSentiment)]).map
          (fun e => reward e.1 e.2)).sum /
        (([(Outcome.Completed, Sentiment.Positive),
           (Outcome.Skipped, Sentiment.NoSentiment)] :
            List (Outcome × Sentiment)).length : ℚ) :=
  (claim9_feedback_incremental_mean { mean := 0, tries := 0 } .Completed .Positive
      [(Outcome.Completed, Sentiment.Positive),
       (Outcome.Skipped, Sentiment.NoSentiment)]).2.2.2.2.2 (by decide)

end BreathePulse
